import Mathlib

/-!
Verification of the exposure-to-cost model and the graph AQI refresh logic of
hope-green-path-server (src/utils/aq_exposures.py and
src/utils/graph_aqi_updater.py), shallowly embedded over exact rationals.
Python floats are modelled as rationals; Python `round(x, nd)` (banker's
rounding, round-half-to-even) is modelled exactly by `pyRound` / `round2`.
Fallible Python code (raising exceptions) is modelled with `Except`.
-/

attribute [local semireducible] Rat.mul Rat.add Rat.sub Rat.inv Rat.ofScientific

/-- Python `round(x)` on a rational: round to the nearest integer,
ties going to the even integer (banker's rounding). -/
def pyRound (q : ℚ) : ℤ :=
  if q - ⌊q⌋ < 1/2 then ⌊q⌋
  else if 1/2 < q - ⌊q⌋ then ⌊q⌋ + 1
  else if ⌊q⌋ % 2 = 0 then ⌊q⌋ else ⌊q⌋ + 1

/-- Python `round(x, 2)`: round to two decimal places, ties to even. -/
def round2 (q : ℚ) : ℚ := (pyRound (q * 100) : ℚ) / 100

/-- Errors raised by the modelled Python code. -/
inductive PyErr where
  | typeError
  | indexError
  | valueError
  | zeroDivisionError
  | nanValue
deriving DecidableEq, Repr

instance {ε α : Type} [DecidableEq ε] [DecidableEq α] : DecidableEq (Except ε α) :=
  fun a b =>
    match a, b with
    | .ok x, .ok y =>
      if h : x = y then isTrue (by rw [h]) else isFalse (fun c => by cases c; exact h rfl)
    | .error e, .error f =>
      if h : e = f then isTrue (by rw [h]) else isFalse (fun c => by cases c; exact h rfl)
    | .ok _, .error _ => isFalse (fun c => Except.noConfusion c)
    | .error _, .ok _ => isFalse (fun c => Except.noConfusion c)

/-- True when an `Except` computation finished without raising. -/
def exOk {ε α : Type} : Except ε α → Bool
  | .ok _ => true
  | .error _ => false

/-- Decimal rendering of a rational, matching Python `str` on the sensitivity
values that occur in the code (integers and one-decimal fractions). -/
def ratStr (q : ℚ) : String :=
  if q.den = 1 then toString q.num
  else if (q * 10).den = 1 then
    toString ((q * 10).num / 10) ++ "." ++ toString ((q * 10).num % 10)
  else toString q.num ++ "/" ++ toString q.den

/-- The cost-column name `'aqc_' + str(sen)` used by `get_aqi_costs`. -/
def aqcKey (sen : ℚ) : String := "aqc_" ++ ratStr sen

/-- `get_aq_sensitivities` (aq_exposures.py lines 11-26). -/
def get_aq_sensitivities (subset : Bool) : List ℚ :=
  if subset then [0.2, 0.5, 1, 3, 6, 10, 20]
  else [0.2, 0.5, 1, 3, 6, 10, 20, 35]

/-- `get_aqi_coeff` (aq_exposures.py lines 28-31): `(aqi - 1) / 4`. -/
def get_aqi_coeff (aqi : ℚ) : ℚ := (aqi - 1) / 4

/-- The value returned by `get_aqi_cost` when a coefficient is determined:
`round(length * aqi_coeff * sen, 2)` (aq_exposures.py lines 37-40). -/
def get_aqi_cost_val (length aqi_coeff sen : ℚ) : ℚ := round2 (length * aqi_coeff * sen)

/-- `get_aqi_cost` (aq_exposures.py lines 33-42). `aqi_coeff` and `aqi` are
optional arguments; a `ValueError` is raised when neither is given. -/
def get_aqi_cost (length : ℚ) (aqi_coeff : Option ℚ) (aqi : Option ℚ) (sen : ℚ) :
    Except PyErr ℚ :=
  match aqi_coeff with
  | some c => .ok (get_aqi_cost_val length c sen)
  | none =>
    match aqi with
    | some a => .ok (get_aqi_cost_val length (get_aqi_coeff a) sen)
    | none => .error .valueError

/-- `get_aqi_costs` (aq_exposures.py lines 44-53): for each sensitivity `sen`,
the entry `'aqc_' + str(sen) : round(length + get_aqi_cost(aqi_exp[1],
aqi_coeff, sen), 2)`; note the inner cost is itself already rounded. -/
def get_aqi_costs (aqi_exp : ℚ × ℚ) (sens : List ℚ) (length : ℚ) :
    List (String × ℚ) :=
  sens.map (fun sen =>
    (aqcKey sen, round2 (length + get_aqi_cost_val aqi_exp.2 (get_aqi_coeff aqi_exp.1) sen)))

/-- `get_mean_aqi` (aq_exposures.py lines 133-138). Python float division by
zero raises `ZeroDivisionError`; otherwise the rounded weighted mean is returned. -/
def get_mean_aqi (aqi_exp_list : List (ℚ × ℚ)) : Except PyErr ℚ :=
  let total_dist := (aqi_exp_list.map (fun e => e.2)).sum
  let total_aqi := (aqi_exp_list.map (fun e => e.1 * e.2)).sum
  if total_dist = 0 then .error .zeroDivisionError
  else .ok (round2 (total_aqi / total_dist))

/-- `get_aqi_class` (aq_exposures.py lines 85-93), including the dead
`else: return 0` branch of the source. -/
def get_aqi_class (aqi : ℚ) : ℤ :=
  if aqi < 2 then 1
  else if aqi < 3 then 2
  else if aqi < 4 then 3
  else if aqi < 5 then 4
  else if 5 ≤ aqi then 5
  else 0

/-- Modelled from the spec: the AqiClass determined by the half-open ranges
of spec section 3, which cover exactly the interval from 1 upward;
0 is returned outside every range. -/
def aqi_class_ranges_spec (aqi : ℚ) : ℤ :=
  if 1 ≤ aqi ∧ aqi < 2 then 1
  else if 2 ≤ aqi ∧ aqi < 3 then 2
  else if 3 ≤ aqi ∧ aqi < 4 then 3
  else if 4 ≤ aqi ∧ aqi < 5 then 4
  else if 5 ≤ aqi then 5
  else 0

/-! ## Dynamic Python values

The `aqi_exp` column is dynamically typed: the CSV converter `ast.literal_eval`
and the left join can put a tuple, a number, a string, None or NaN in it.
Scalars and flat tuples of scalars suffice for every shape the code inspects
(the validators only ever test `isinstance(_, tuple)` and `isinstance(_, float)`
and subscript with 0 and 1). -/

/-- A non-tuple Python value. `pnan` is `float('nan')`. -/
inductive PyScalar where
  | pfloat : ℚ → PyScalar
  | pnan : PyScalar
  | pint : ℤ → PyScalar
  | pstr : String → PyScalar
  | pnone : PyScalar
deriving DecidableEq, Repr

/-- A Python value as stored in the `aqi_exp` column. -/
inductive PyVal where
  | scalar : PyScalar → PyVal
  | ptuple : List PyScalar → PyVal
deriving DecidableEq, Repr

/-- `isinstance(x, float)`: NaN is a float. -/
def PyScalar.isFloat : PyScalar → Bool
  | .pfloat _ => true
  | .pnan => true
  | _ => false

/-- `isinstance(x, tuple)`. -/
def PyVal.isTuple : PyVal → Bool
  | .ptuple _ => true
  | _ => false

/-- Indexing into a sequence: the element, or `IndexError` past the end. -/
def listGetE : List PyScalar → ℕ → Except PyErr PyScalar
  | [], _ => .error .indexError
  | x :: _, 0 => .ok x
  | _ :: xs, n + 1 => listGetE xs n

/-- Python subscription `x[i]`: tuples and strings are subscriptable
(`IndexError` past the end), everything else raises `TypeError`. -/
def PyVal.getItem : PyVal → ℕ → Except PyErr PyScalar
  | .ptuple l, i => listGetE l i
  | .scalar (.pstr s), i => listGetE (s.toList.map (fun c => .pstr (String.mk [c]))) i
  | .scalar _, _ => .error .typeError

/-- Python `x == q` for a float-typed value: NaN compares unequal to everything. -/
def PyScalar.eqQ : PyScalar → ℚ → Bool
  | .pfloat x, q => x == q
  | .pint z, q => (z : ℚ) == q
  | _, _ => false

/-- Python `x < q` for a float-typed value: every comparison with NaN is false. -/
def PyScalar.ltQ : PyScalar → ℚ → Bool
  | .pfloat x, q => decide (x < q)
  | .pint z, q => decide ((z : ℚ) < q)
  | _, _ => false

/-- Numeric coercion used by arithmetic on an `aqi_exp` member. A non-numeric
operand raises `TypeError`. NaN is kept apart (`ast.literal_eval`, which
produces every batch value, cannot yield NaN, so the case is unreachable in
the modelled pipeline). -/
def PyScalar.toQ : PyScalar → Except PyErr ℚ
  | .pfloat x => .ok x
  | .pint z => .ok (z : ℚ)
  | .pnan => .error .nanValue
  | _ => .error .typeError

/-- Left-to-right effectful map, as a Python list comprehension evaluates:
the first raised exception propagates. -/
def mapE {α β : Type} (f : α → Except PyErr β) : List α → Except PyErr (List β)
  | [] => .ok []
  | x :: xs =>
    match f x with
    | .error e => .error e
    | .ok y =>
      match mapE f xs with
      | .error e => .error e
      | .ok ys => .ok (y :: ys)

/-! ## The exposure validators -/

/-- The per-record classifier inside `validate_df_aqi_exps`
(aq_exposures.py lines 174-197): validity codes 0 (valid), 1 (missing),
3 (out of range), 4/5 (type mismatch). Subscription happens after the
tuple test, so a too-short tuple raises `IndexError`. -/
def validate_aqi_exp_code (aqi_exp : PyVal) : Except PyErr ℤ :=
  if ¬ aqi_exp.isTuple then .ok 5
  else
    match aqi_exp.getItem 0 with
    | .error e => .error e
    | .ok a0 =>
      if ¬ a0.isFloat then .ok 5
      else
        match aqi_exp.getItem 1 with
        | .error e => .error e
        | .ok a1 =>
          if ¬ a1.isFloat then .ok 4
          else if a0.eqQ 0 then .ok 1
          else if a0.ltQ 0 then .ok 3
          else if a0.ltQ 1 then .ok 3
          else if a1.ltQ 0 then .ok 3
          else .ok 0

/-- `validate_df_aqi_exps` (aq_exposures.py lines 173-212) over the `aqi_exp`
column: the batch passes exactly when every record's code is at most 1
(`aqi_exp_ok_count == row_count`); counts are only logged. -/
def validate_df_aqi_exps (aqi_exps : List PyVal) : Except PyErr Bool :=
  match mapE validate_aqi_exp_code aqi_exps with
  | .error e => .error e
  | .ok codes => .ok (codes.all (fun c => c ≤ 1))

/-- The per-record test inside `GraphAqiUpdater.validate_aqi_exps`
(graph_aqi_updater.py lines 163-171): only the shape (tuple of two floats)
is checked, no range test at all. -/
def validate_aqi_exp_row (aqi_exp : PyVal) : Except PyErr Bool :=
  if ¬ aqi_exp.isTuple then .ok false
  else
    match aqi_exp.getItem 0 with
    | .error e => .error e
    | .ok a0 =>
      if ¬ a0.isFloat then .ok false
      else
        match aqi_exp.getItem 1 with
        | .error e => .error e
        | .ok a1 => .ok a1.isFloat

/-- `GraphAqiUpdater.validate_aqi_exps` (graph_aqi_updater.py lines 162-183)
over the `aqi_exp` column: passes exactly when every row has a well-shaped
exposure (`row_count == aqi_exp_count`). -/
def validate_aqi_exps (aqi_exps : List PyVal) : Except PyErr Bool :=
  match mapE validate_aqi_exp_row aqi_exps with
  | .error e => .error e
  | .ok oks => .ok (oks.all id)

/-- Shapes on which `validate_df_aqi_exps` cannot raise: everything except an
empty tuple and a one-member tuple whose member is a float (those two are
subscripted past their end). -/
def tupleShapeOk : PyVal → Bool
  | .ptuple [] => false
  | .ptuple [a] => ¬ a.isFloat
  | _ => true

/-- Whether a validity-code computation ended in one of the codes 0, 1, 3. -/
def tolerated013 : Except PyErr ℤ → Bool
  | .ok c => c == 0 || c == 1 || c == 3
  | .error _ => false

/-- Validity codes tolerated by the updater's shape-only validator: 0, 1 and
also 3 (out-of-range floats pass the shape test). -/
def codeTolerated013 (aqi_exp : PyVal) : Bool :=
  tolerated013 (validate_aqi_exp_code aqi_exp)

/-! ## The graph AQI updater (graph_aqi_updater.py)

`GraphHandler` is not among the repository files under src/, so its two
methods used here are modelled from the spec: `set_edge_gdf` atomically
replaces the shared edge dataset reference that concurrent readers observe
(spec sections 3 and 5: build-new-snapshot-then-swap-reference), and
`update_edge_attr_to_graph` writes the given per-edge attribute dictionaries
into the routing graph's edges by key. Time is rational seconds; the current
UTC instant is passed in where the code calls `datetime.utcnow()`. -/

/-- An edge key (`uvkey`), modelled as an opaque integer key. -/
abbrev Key := ℤ

/-- A row of the edge dataset / of an update batch: the key column and the
dynamically typed `aqi_exp` column. -/
structure EdgeRow where
  uvkey : Key
  aqi_exp : PyVal
deriving DecidableEq, Repr

/-- The per-edge attribute dictionary built by `get_aq_update_attrs`:
`{ 'aqi': aqi_exp[0], 'aqc_<sen>': cost, ... }`. -/
structure EdgeAttrs where
  aqi : PyScalar
  costs : List (String × ℚ)
deriving DecidableEq, Repr

/-- The updater's mutable attributes (graph_aqi_updater.py lines 27-39)
together with the spec-modelled `GraphHandler` state it mutates. -/
structure UpdaterState where
  edge_gdf : List EdgeRow
  graph_attrs : List (Key × EdgeAttrs)
  sens : List ℚ
  aqi_update_status : String
  aqi_data_wip : String
  aqi_data_latest : String
  aqi_data_updatetime : Option ℚ
deriving DecidableEq, Repr

/-- Pandas `edge_gdf.drop(columns=['aqi_exp']).merge(updates, on='uvkey',
how='left')` (graph_aqi_updater.py lines 141-145): each dataset row is
joined with every matching batch row (NaN where no batch row matches). -/
def leftJoinAqiExp (gdf updates : List EdgeRow) : List EdgeRow :=
  gdf.flatMap (fun r =>
    match updates.filter (fun u => u.uvkey == r.uvkey) with
    | [] => [⟨r.uvkey, PyVal.scalar PyScalar.pnan⟩]
    | ms => ms.map (fun u => ⟨r.uvkey, u.aqi_exp⟩))

/-- Modelled from the spec: `GraphHandler.update_edge_attr_to_graph` writes
each keyed attribute dictionary onto the matching graph edge. -/
def update_edge_attr_to_graph (graph : List (Key × EdgeAttrs))
    (updates : List (Key × EdgeAttrs)) : List (Key × EdgeAttrs) :=
  graph.map (fun p =>
    match updates.lookup p.1 with
    | some a => (p.1, a)
    | none => p)

/-- The dict comprehension of `get_aqi_costs` evaluated on a dynamic
`aqi_exp` (aq_exposures.py lines 51-52): `aqi_exp[0]` feeds the coefficient,
`aqi_exp[1]` is re-read per sensitivity, and the already-rounded per-sen cost
is added to `length` and rounded again. -/
def get_aqi_costs_py (aqi_exp : PyVal) (sens : List ℚ) (lenv : PyScalar) :
    Except PyErr (List (String × ℚ)) :=
  match aqi_exp.getItem 0 with
  | .error e => .error e
  | .ok a0 =>
    match a0.toQ with
    | .error e => .error e
    | .ok a =>
      mapE (fun sen =>
        match aqi_exp.getItem 1 with
        | .error e => .error e
        | .ok d0 =>
          match d0.toQ with
          | .error e => .error e
          | .ok d =>
            match lenv.toQ with
            | .error e => .error e
            | .ok length =>
              .ok (aqcKey sen,
                round2 (length + get_aqi_cost_val d (get_aqi_coeff a) sen))) sens

/-- `GraphAqiUpdater.get_aq_update_attrs` (graph_aqi_updater.py lines
119-121): the keyword argument `length=aqi_exp[1]` is evaluated first, then
`get_aqi_costs`, then the `'aqi': aqi_exp[0]` entry. -/
def get_aq_update_attrs (sens : List ℚ) (aqi_exp : PyVal) : Except PyErr EdgeAttrs :=
  match aqi_exp.getItem 1 with
  | .error e => .error e
  | .ok lenv =>
    match get_aqi_costs_py aqi_exp sens lenv with
    | .error e => .error e
    | .ok costs =>
      match aqi_exp.getItem 0 with
      | .error e => .error e
      | .ok a0 => .ok ⟨a0, costs⟩

/-- The list comprehension building the `aq_updates` column
(graph_aqi_updater.py line 155), paired with each batch row's key. -/
def cost_updates (sens : List ℚ) (updates : List EdgeRow) :
    Except PyErr (List (Key × EdgeAttrs)) :=
  mapE (fun u =>
    match get_aq_update_attrs sens u.aqi_exp with
    | .error e => .error e
    | .ok a => .ok (u.uvkey, a)) updates

/-- Externally visible effects of one update cycle, in order of occurrence. -/
inductive CycleEvent where
  | publishGdf : List EdgeRow → CycleEvent
  | updateGraphCosts : List (Key × EdgeAttrs) → CycleEvent
deriving DecidableEq, Repr

/-- True for the snapshot-swap effect (`G.set_edge_gdf`). -/
def isPublishEvent : CycleEvent → Bool
  | .publishGdf _ => true
  | _ => false

/-- True for the graph cost write effect (`G.update_edge_attr_to_graph`). -/
def isCostWriteEvent : CycleEvent → Bool
  | .updateGraphCosts _ => true
  | _ => false

/-- `GraphAqiUpdater.read_update_aqi_to_graph` (graph_aqi_updater.py lines
123-160). `csvContents` is the outcome of `pd.read_csv` with the
`ast.literal_eval` converters; `now` is `datetime.utcnow()`. Returns the
state as left by the call (an exception leaves every mutation made so far,
including the published merged dataset, in place), the effect trace, and the
exception if one was raised. The key-count comparison (lines 129-133) and
both validation verdicts (lines 135-138 and 149-152) only log. -/
def read_update_aqi_to_graph (st : UpdaterState) (csvName : String)
    (csvContents : Except PyErr (List EdgeRow)) (now : ℚ) :
    UpdaterState × List CycleEvent × Option PyErr :=
  let st1 := { st with aqi_data_wip := csvName }
  match csvContents with
  | .error e => (st1, [], some e)
  | .ok updates =>
    match validate_aqi_exps (updates.map (fun u => u.aqi_exp)) with
    | .error e => (st1, [], some e)
    | .ok _ =>
      let merged := leftJoinAqiExp st1.edge_gdf updates
      let st2 := { st1 with edge_gdf := merged }
      match validate_aqi_exps (merged.map (fun u => u.aqi_exp)) with
      | .error e => (st2, [.publishGdf merged], some e)
      | .ok _ =>
        match cost_updates st2.sens updates with
        | .error e => (st2, [.publishGdf merged], some e)
        | .ok attrs =>
          ({ st2 with
              graph_attrs := update_edge_attr_to_graph st2.graph_attrs attrs,
              aqi_data_updatetime := some now,
              aqi_data_latest := csvName,
              aqi_data_wip := "" },
           [.publishGdf merged, .updateGraphCosts attrs], none)

/-- `GraphAqiUpdater.new_aqi_data_available` (graph_aqi_updater.py lines
93-117): the candidate file name, and the state with the deduplicated status
message stored. -/
def new_aqi_data_available (st : UpdaterState) (expectedName : String)
    (dirListing : List String) : Option String × UpdaterState :=
  let pair :=
    if expectedName == st.aqi_data_latest then
      (none, "latest AQI was updated to graph")
    else if expectedName == st.aqi_data_wip then
      (none, "AQI update already in progress")
    else if dirListing.contains expectedName then
      (some expectedName, "AQI update will be done from: " ++ expectedName)
    else
      (none, "expected AQI data is not available (" ++ expectedName ++ ")")
  (pair.1, { st with aqi_update_status := pair.2 })

/-- `GraphAqiUpdater.maybe_read_update_aqi_to_graph` (graph_aqi_updater.py
lines 53-64), the body of each scheduler tick: trigger a cycle when a
candidate is found; on an exception store the failure status (and sleep). -/
def maybe_read_update_aqi_to_graph (st : UpdaterState) (expectedName : String)
    (dirListing : List String) (csvContents : Except PyErr (List EdgeRow))
    (now : ℚ) : UpdaterState × List CycleEvent × Option PyErr :=
  match new_aqi_data_available st expectedName dirListing with
  | (none, st1) => (st1, [], none)
  | (some f, st1) =>
    match read_update_aqi_to_graph st1 f csvContents now with
    | (st2, evs, some e) =>
      ({ st2 with aqi_update_status := "could not complete AQI update from: " ++ f },
       evs, some e)
    | (st2, evs, none) => (st2, evs, none)

/-- `GraphAqiUpdater.get_aqi_updated_since_secs` (graph_aqi_updater.py lines
75-80): `int(round((utcnow - updatetime).total_seconds()))`, or None. -/
def get_aqi_updated_since_secs (now : ℚ) (st : UpdaterState) : Option ℤ :=
  match st.aqi_data_updatetime with
  | some t => some (pyRound (now - t))
  | none => none

/-- `GraphAqiUpdater.bool_graph_aqi_is_up_to_date` (graph_aqi_updater.py
lines 82-91): fresh when an update happened and the rounded elapsed seconds
are below `60 * 70`. -/
def bool_graph_aqi_is_up_to_date (now : ℚ) (st : UpdaterState) : Bool :=
  match st.aqi_data_updatetime with
  | none => false
  | some t =>
    if pyRound (now - t) < 60 * 70 then true else false

/-- Batch exposures on which the whole cost fan-out succeeds: a tuple whose
first two members are proper (non-NaN) floats, the shape every actually
well-formed CSV row has. -/
def wellFormedExp : PyVal → Bool
  | .ptuple (.pfloat _ :: .pfloat _ :: _) => true
  | _ => false

/-- The attribute dictionary `get_aq_update_attrs` computes on a well-formed
exposure, expressed through the pure cost model: `aqi` is the index and the
costs are `get_aqi_costs((aqi, dist), sens, length=dist)`. -/
def attrs_of (sens : List ℚ) : PyVal → EdgeAttrs
  | .ptuple (.pfloat a :: .pfloat d :: _) => ⟨.pfloat a, get_aqi_costs (a, d) sens d⟩
  | _ => ⟨.pnone, []⟩

/-! ## Concrete scenarios -/

/-- A one-edge state as after startup and one earlier successful update:
edge 1 carries exposure (2.0, 5.0) and its published cost attributes. -/
def stOne : UpdaterState :=
  { edge_gdf := [⟨1, .ptuple [.pfloat 2, .pfloat 5]⟩],
    graph_attrs := [(1, ⟨.pfloat 2, [("aqc_1", 5)]⟩)],
    sens := get_aq_sensitivities false,
    aqi_update_status := "",
    aqi_data_wip := "",
    aqi_data_latest := "",
    aqi_data_updatetime := none }

/-- A batch whose single exposure is the integer 5 instead of a pair: it
passes both (shape-only, fail-open) validations, is merged and published,
and then raises `TypeError` at `aqi_exp[1]` during cost computation. -/
def batchBad : List EdgeRow := [⟨1, .scalar (.pint 5)⟩]

/-- A well-formed batch for edge 1: exposure (3.0, 10.0). -/
def batchGood : List EdgeRow := [⟨1, .ptuple [.pfloat 3, .pfloat 10]⟩]

/-- `stOne` with an update cycle already in flight for the previous hour's
file (as after a failed cycle, which does not clear the marker). -/
def stWip : UpdaterState := { stOne with aqi_data_wip := "aqi_2019-11-11T16.csv" }

/-- The rows of a successfully parsed CSV, the empty batch for a failed parse. -/
def okRows : Except PyErr (List EdgeRow) → List EdgeRow
  | .ok u => u
  | .error _ => []

/-! ## Sanity checks of the embedding on concrete inputs -/

example : get_aqi_costs (3, 10) [1, 2] 10 = [("aqc_1", 15), ("aqc_2", 20)] := by decide
example : get_mean_aqi [(2, 10), (4, 10)] = .ok 3 := by decide
example : get_aqi_class (3/2) = 1 ∧ get_aqi_class 2 = 2 := by decide
example : validate_aqi_exps [PyVal.ptuple [.pfloat (-5), .pfloat 10]] = .ok true := by decide
example : validate_aqi_exp_code (PyVal.ptuple [.pfloat (-5), .pfloat 10]) = .ok 3 := by decide
example : validate_df_aqi_exps [PyVal.ptuple [.pstr "a"]] = .ok false := by decide
example :
    (read_update_aqi_to_graph stOne "aqi_2019-11-11T17.csv" (.ok batchBad) 0).1.edge_gdf
      = [⟨1, .scalar (.pint 5)⟩] := by decide
example :
    (maybe_read_update_aqi_to_graph stWip "aqi_2019-11-11T17.csv"
      ["aqi_2019-11-11T17.csv"] (.ok batchGood) 0).1.edge_gdf
      = [⟨1, .ptuple [.pfloat 3, .pfloat 10]⟩] := by decide

/-! ## Helper lemmas -/

/-- The rounded elapsed seconds pass the `< 4200` test exactly below 4199.5
seconds: `round` sends the tie 4199.5 up to the even integer 4200. -/
lemma pyRound_lt_4200_iff (q : ℚ) : pyRound q < 4200 ↔ q < 8399 / 2 := by
  unfold pyRound
  have h1 : (⌊q⌋ : ℚ) ≤ q := Int.floor_le q
  have h2 : q < ⌊q⌋ + 1 := Int.lt_floor_add_one q
  split_ifs with hr hr2 hp
  · constructor
    · intro hf
      have hf' : (⌊q⌋ : ℚ) ≤ 4199 := by exact_mod_cast Int.lt_add_one_iff.mp hf
      linarith
    · intro hq
      have : (⌊q⌋ : ℚ) < 4200 := by linarith
      exact_mod_cast this
  · constructor
    · intro hf
      have hf' : (⌊q⌋ : ℚ) + 1 ≤ 4199 := by exact_mod_cast Int.lt_add_one_iff.mp hf
      linarith
    · intro hq
      have : (⌊q⌋ : ℚ) < 4199 := by linarith
      have : ⌊q⌋ < 4199 := by exact_mod_cast this
      omega
  · have heq : q - ⌊q⌋ = 1/2 := le_antisymm (not_lt.mp hr2) (not_lt.mp hr)
    constructor
    · intro hf
      have : ⌊q⌋ ≤ 4198 := by omega
      have : (⌊q⌋ : ℚ) ≤ 4198 := by exact_mod_cast this
      linarith
    · intro hq
      have : (⌊q⌋ : ℚ) < 4199 := by linarith
      have : ⌊q⌋ < 4199 := by exact_mod_cast this
      omega
  · have heq : q - ⌊q⌋ = 1/2 := le_antisymm (not_lt.mp hr2) (not_lt.mp hr)
    constructor
    · intro hf
      have : (⌊q⌋ : ℚ) + 1 ≤ 4199 := by exact_mod_cast Int.lt_add_one_iff.mp hf
      linarith
    · intro hq
      have : (⌊q⌋ : ℚ) < 4199 := by linarith
      have : ⌊q⌋ < 4199 := by exact_mod_cast this
      omega

/-! ## Claims about the pure cost model -/

/-- Claim C9: for every pollution index in the domain the half-open ranges
cover (from 1 upward), `get_aqi_class` returns the class the spec's ranges
determine. The source and the ranges agree on all of it, including the
boundary points 2.0 and 5.0. -/
theorem claim_C9_aqi_class_matches_ranges (p : ℚ) (h : 1 ≤ p) :
    get_aqi_class p = aqi_class_ranges_spec p := by
  rcases lt_or_le p 2 with h2 | h2
  · simp [get_aqi_class, aqi_class_ranges_spec, h, h2]
  · rcases lt_or_le p 3 with h3 | h3
    · simp [get_aqi_class, aqi_class_ranges_spec, h2, h3, not_lt.mpr h2]
    · rcases lt_or_le p 4 with h4 | h4
      · simp [get_aqi_class, aqi_class_ranges_spec, h3, h4, not_lt.mpr h2, not_lt.mpr h3]
      · rcases lt_or_le p 5 with h5 | h5
        · simp [get_aqi_class, aqi_class_ranges_spec, h4, h5, not_lt.mpr h2, not_lt.mpr h3,
            not_lt.mpr h4]
        · simp [get_aqi_class, aqi_class_ranges_spec, h5, not_lt.mpr h2, not_lt.mpr h3,
            not_lt.mpr h4, not_lt.mpr h5]

/-- Witness for claim C9 at the spec's own probe point 4.999. -/
theorem claim_C9_witness :
    ((1 : ℚ) ≤ 4999/1000) ∧ get_aqi_class (4999/1000) = aqi_class_ranges_spec (4999/1000) :=
  ⟨by norm_num, claim_C9_aqi_class_matches_ranges (4999/1000) (by norm_num)⟩

/-- Claim C10: when both a precomputed coefficient and a raw index are
supplied, `get_aqi_cost` returns `round(length * aqi_coeff * sen, 2)` — the
coefficient wins and the raw index is ignored — and the `ValueError` is
raised exactly when both are absent. -/
theorem claim_C10_coeff_precedence (l c a s : ℚ) (co ao : Option ℚ) :
    get_aqi_cost l (some c) (some a) s = .ok (round2 (l * c * s)) ∧
    (get_aqi_cost l co ao s = .error .valueError ↔ co = none ∧ ao = none) := by
  refine ⟨rfl, ?_⟩
  cases co <;> cases ao <;> simp [get_aqi_cost]

/-- Counterexample to claim C4 as stated: at exposure (1.016, 1.0),
sensitivity 1 and base length 0.004 the code's double rounding collapses the
cost to 0.0, while the claimed single-rounded formula gives 0.01. -/
theorem claim_C4_counterexample :
    (get_aqi_costs (127/125, 1) [1] (1/250)).lookup "aqc_1" = some 0 ∧
    round2 (1/250 + 1 * get_aqi_coeff (127/125) * 1) = 1/100 ∧
    (0 : ℚ) ≠ 1/100 := by decide

/-- Claim C4 as amended: the fan-out has exactly one entry per sensitivity,
named through `aqcKey`, whose value is `round(length + round(distance *
coeff * sen, 2), 2)` — the per-sensitivity cost is rounded before the base
length is added and the sum rounded again; the spec's worked example holds. -/
theorem claim_C4_costs_double_rounded (a d L s : ℚ) (sens : List ℚ) (h : s ∈ sens) :
    ((aqcKey s, round2 (L + round2 (d * ((a - 1) / 4) * s))) ∈ get_aqi_costs (a, d) sens L) ∧
    (get_aqi_costs (a, d) sens L).length = sens.length ∧
    get_aqi_costs (3, 10) [1, 2] 10 = [("aqc_1", 15), ("aqc_2", 20)] := by
  refine ⟨?_, by simp [get_aqi_costs], by decide⟩
  have hm := List.mem_map_of_mem
    (fun sen => (aqcKey sen, round2 (L + get_aqi_cost_val d (get_aqi_coeff a) sen))) h
  simpa [get_aqi_costs, get_aqi_cost_val, get_aqi_coeff] using hm

/-- Witness for claim C4 at the spec's worked example, sensitivity 1. -/
theorem claim_C4_witness :
    ((1 : ℚ) ∈ ([1, 2] : List ℚ)) ∧
    (((aqcKey 1, round2 (10 + round2 (10 * (((3 : ℚ) - 1) / 4) * 1)))
        ∈ get_aqi_costs (3, 10) [1, 2] 10) ∧
      (get_aqi_costs (3, 10) [1, 2] 10).length = ([1, 2] : List ℚ).length ∧
      get_aqi_costs (3, 10) [1, 2] 10 = [("aqc_1", 15), ("aqc_2", 20)]) :=
  ⟨by decide, claim_C4_costs_double_rounded 3 10 10 1 [1, 2] (by decide)⟩

/-- Counterexample to claim C7 as stated: on [(2.0, 1.0), (3.0, 2.0)] the
code returns 2.67, not the exact distance-weighted average 8/3. -/
theorem claim_C7_counterexample :
    get_mean_aqi [(2, 1), (3, 2)] = .ok (267/100) ∧
    (([((2 : ℚ), (1 : ℚ)), (3, 2)].map (fun e => e.1 * e.2)).sum
        / ([((2 : ℚ), (1 : ℚ)), (3, 2)].map (fun e => e.2)).sum) = 8/3 ∧
    (267/100 : ℚ) ≠ 8/3 := by decide

/-- Claim C7 as amended: `get_mean_aqi` returns the distance-weighted average
rounded to two decimals whenever the total distance is non-zero, raises
`ZeroDivisionError` exactly when it is zero, and gives 3.0 on the spec's
example. -/
theorem claim_C7_mean_aqi (l : List (ℚ × ℚ)) :
    ((l.map (fun e => e.2)).sum ≠ 0 →
      get_mean_aqi l
        = .ok (round2 ((l.map (fun e => e.1 * e.2)).sum / (l.map (fun e => e.2)).sum))) ∧
    (get_mean_aqi l = .error .zeroDivisionError ↔ (l.map (fun e => e.2)).sum = 0) ∧
    get_mean_aqi [(2, 10), (4, 10)] = .ok 3 := by
  unfold get_mean_aqi
  by_cases h : (l.map (fun e => e.2)).sum = 0 <;> simp [h] <;> decide

/-- Counterexample to claim C8 as stated: 4199.7 seconds after the last
update the elapsed time is strictly below 70 minutes, yet the code rounds it
to 4200 and reports the dataset as stale. -/
theorem claim_C8_counterexample :
    bool_graph_aqi_is_up_to_date (41997/10) { stOne with aqi_data_updatetime := some 0 }
      = false ∧
    ((41997/10 : ℚ) - 0 < 70 * 60) ∧
    ({ stOne with aqi_data_updatetime := some 0 } : UpdaterState).aqi_data_updatetime
      ≠ none := by decide

/-- Claim C8 as amended: the freshness flag is false before any update ever
completes, and with a last-update instant `t` it is true exactly when
`now - t < 4199.5` seconds — the code compares the rounded elapsed seconds
with 4200, so the effective window falls half a second short of 70 minutes.
The status endpoint's seconds field is that same rounded difference. -/
theorem claim_C8_freshness (now t : ℚ) (st : UpdaterState) :
    (bool_graph_aqi_is_up_to_date now { st with aqi_data_updatetime := some t } = true
      ↔ now - t < 8399/2) ∧
    bool_graph_aqi_is_up_to_date now { st with aqi_data_updatetime := none } = false ∧
    get_aqi_updated_since_secs now { st with aqi_data_updatetime := some t }
      = some (pyRound (now - t)) := by
  refine ⟨?_, rfl, rfl⟩
  show (if pyRound (now - t) < 60 * 70 then true else false) = true ↔ now - t < 8399/2
  rw [← pyRound_lt_4200_iff]
  norm_num

/-! ## Claims about the exposure validators -/

/-- The updater's per-record shape test accepts a record exactly when the
validity-code classifier of `validate_df_aqi_exps` would give it code 0, 1 or
3: type mismatches (4, 5) fail it, out-of-range floats (3) pass it. -/
lemma row_true_iff_code_tolerated (v : PyVal) :
    validate_aqi_exp_row v = .ok true ↔ codeTolerated013 v = true := by
  rcases v with s | l
  · rcases s <;>
      simp [validate_aqi_exp_row, codeTolerated013, validate_aqi_exp_code, PyVal.isTuple,
        tolerated013]
  · rcases l with _ | ⟨a, as⟩
    · simp [validate_aqi_exp_row, codeTolerated013, validate_aqi_exp_code, PyVal.isTuple,
        PyVal.getItem, listGetE, tolerated013]
    · rcases as with _ | ⟨b, bs⟩
      · cases ha : a.isFloat <;>
          simp [validate_aqi_exp_row, codeTolerated013, validate_aqi_exp_code, PyVal.isTuple,
            PyVal.getItem, listGetE, tolerated013, ha]
      · cases ha : a.isFloat <;> cases hb : b.isFloat <;>
          simp [validate_aqi_exp_row, codeTolerated013, validate_aqi_exp_code, PyVal.isTuple,
            PyVal.getItem, listGetE, tolerated013, ha, hb]
        split_ifs <;> simp [tolerated013]

/-- The updater's batch validator passes exactly when every record passes the
per-record shape test. -/
lemma validate_aqi_exps_ok_true_iff (exps : List PyVal) :
    validate_aqi_exps exps = .ok true ↔ ∀ v ∈ exps, validate_aqi_exp_row v = .ok true := by
  induction exps with
  | nil => simp [validate_aqi_exps, mapE]
  | cons v vs ih =>
    cases hv : validate_aqi_exp_row v with
    | error e =>
      refine iff_of_false (by simp [validate_aqi_exps, mapE, hv]) ?_
      intro hall
      exact absurd (hall v (by simp)) (by simp [hv])
    | ok b =>
      cases hm : mapE validate_aqi_exp_row vs with
      | error e =>
        refine iff_of_false (by simp [validate_aqi_exps, mapE, hv, hm]) ?_
        intro hall
        have hvs : validate_aqi_exps vs = .ok true :=
          ih.mpr (fun u hu => hall u (List.mem_cons_of_mem v hu))
        rw [validate_aqi_exps, hm] at hvs
        exact Except.noConfusion hvs
      | ok oks =>
        have ihr : (oks.all id = true) ↔ ∀ u ∈ vs, validate_aqi_exp_row u = .ok true := by
          rw [← ih, validate_aqi_exps, hm]
          simp
        constructor
        · intro hl
          rw [validate_aqi_exps, mapE, hv, hm] at hl
          simp only [Except.ok.injEq, List.all_cons, Bool.and_eq_true, id_eq] at hl
          intro u hu
          rcases List.mem_cons.mp hu with rfl | hu2
          · rw [hv, hl.1]
          · exact ihr.mp hl.2 u hu2
        · intro hall
          rw [validate_aqi_exps, mapE, hv, hm]
          have h1 := hall v (by simp)
          rw [hv] at h1
          simp only [Except.ok.injEq] at h1
          simp [h1, ihr.mpr (fun u hu => hall u (List.mem_cons_of_mem v hu))]

/-- Counterexample to claim C5 as stated: the record (-5.0, 10.0) has
validity code 3 (out of range, not in the tolerated set), yet the validator
the update cycle actually runs reports the batch as fully acceptable. -/
theorem claim_C5_counterexample :
    validate_aqi_exps [PyVal.ptuple [.pfloat (-5), .pfloat 10]] = .ok true ∧
    validate_aqi_exp_code (PyVal.ptuple [.pfloat (-5), .pfloat 10]) = .ok 3 ∧
    ¬ ((3 : ℤ) = 0 ∨ (3 : ℤ) = 1) := by decide

/-- Claim C5 as amended: both validation passes of the update cycle run the
shape-only validator `validate_aqi_exps`, which accepts a batch exactly when
every record's validity code lies in {0, 1, 3}: type mismatches (codes 4, 5)
degrade the batch, but out-of-range values (code 3) do not; the code-based
{0, 1} criterion belongs to `validate_df_aqi_exps`, which the cycle never
invokes. -/
theorem claim_C5_cycle_validator_shape_only (exps : List PyVal) :
    validate_aqi_exps exps = .ok true ↔ ∀ v ∈ exps, codeTolerated013 v = true :=
  (validate_aqi_exps_ok_true_iff exps).trans
    (forall_congr' (fun v => forall_congr' (fun _ => row_true_iff_code_tolerated v)))

/-- The validity-code classifier finishes without raising exactly on records
whose shape allows the subscripts it performs. -/
lemma code_exOk_eq_shape (v : PyVal) :
    exOk (validate_aqi_exp_code v) = tupleShapeOk v := by
  rcases v with s | l
  · rcases s <;> rfl
  · rcases l with _ | ⟨a, as⟩
    · rfl
    · rcases as with _ | ⟨b, bs⟩
      · cases ha : a.isFloat <;>
          simp [validate_aqi_exp_code, tupleShapeOk, PyVal.isTuple, PyVal.getItem, listGetE,
            exOk, ha]
      · cases ha : a.isFloat <;> cases hb : b.isFloat <;>
          simp [validate_aqi_exp_code, tupleShapeOk, PyVal.isTuple, PyVal.getItem, listGetE,
            exOk, ha, hb]
        split_ifs <;> rfl

/-- Counterexample to claim C6 as stated: on a batch holding an empty tuple
the validator raises `IndexError` instead of returning a report; a
one-member tuple with a float member raises as well. -/
theorem claim_C6_counterexample :
    validate_df_aqi_exps [PyVal.ptuple []] = .error .indexError ∧
    validate_df_aqi_exps [PyVal.ptuple [.pfloat 2]] = .error .indexError := by decide

/-- Claim C6 as amended: `validate_df_aqi_exps` returns a report (it does not
raise) exactly when every record is a non-tuple or a tuple it can subscript
past the type guards: an empty tuple, or a one-member tuple whose member is a
float, raises `IndexError`. -/
theorem claim_C6_validator_totality (exps : List PyVal) :
    exOk (validate_df_aqi_exps exps) = exps.all tupleShapeOk := by
  induction exps with
  | nil => rfl
  | cons v vs ih =>
    cases hv : validate_aqi_exp_code v with
    | error e =>
      have hs : tupleShapeOk v = false := by rw [← code_exOk_eq_shape, hv]; rfl
      simp [validate_df_aqi_exps, mapE, hv, hs, exOk]
    | ok c =>
      have hs : tupleShapeOk v = true := by rw [← code_exOk_eq_shape, hv]; rfl
      cases hm : mapE validate_aqi_exp_code vs with
      | error e =>
        have hvs : vs.all tupleShapeOk = false := by
          rw [← ih, validate_df_aqi_exps, hm]; rfl
        simp [validate_df_aqi_exps, mapE, hv, hm, hs, hvs, exOk]
      | ok cs =>
        have hvs : vs.all tupleShapeOk = true := by
          rw [← ih, validate_df_aqi_exps, hm]; rfl
        simp [validate_df_aqi_exps, mapE, hv, hm, hs, hvs, exOk]

/-! ## Claims about the refresh cycle -/

/-- A cycle whose CSV read raises leaves only the wip marker set. -/
lemma read_update_parse_error (st : UpdaterState) (name : String) (e : PyErr) (now : ℚ) :
    read_update_aqi_to_graph st name (.error e) now
      = ({ st with aqi_data_wip := name }, [], some e) := rfl

/-- A cycle aborted by the first (pre-merge) validation raise publishes
nothing. -/
lemma read_update_validate1_error (st : UpdaterState) (name : String)
    (updates : List EdgeRow) (now : ℚ) (e : PyErr)
    (h1 : validate_aqi_exps (updates.map (fun u => u.aqi_exp)) = .error e) :
    read_update_aqi_to_graph st name (.ok updates) now
      = ({ st with aqi_data_wip := name }, [], some e) := by
  simp only [read_update_aqi_to_graph, h1]

/-- A cycle aborted by the second (post-merge) validation raise has already
published the merged dataset. -/
lemma read_update_validate2_error (st : UpdaterState) (name : String)
    (updates : List EdgeRow) (now : ℚ) (b1 : Bool) (e : PyErr)
    (h1 : validate_aqi_exps (updates.map (fun u => u.aqi_exp)) = .ok b1)
    (h2 : validate_aqi_exps ((leftJoinAqiExp st.edge_gdf updates).map (fun u => u.aqi_exp))
        = .error e) :
    read_update_aqi_to_graph st name (.ok updates) now
      = ({ st with aqi_data_wip := name, edge_gdf := leftJoinAqiExp st.edge_gdf updates },
         [.publishGdf (leftJoinAqiExp st.edge_gdf updates)], some e) := by
  simp only [read_update_aqi_to_graph, h1, h2]

/-- A cycle aborted by a raise in the cost fan-out has already published the
merged dataset, with the graph costs untouched. -/
lemma read_update_costs_error (st : UpdaterState) (name : String)
    (updates : List EdgeRow) (now : ℚ) (b1 b2 : Bool) (e : PyErr)
    (h1 : validate_aqi_exps (updates.map (fun u => u.aqi_exp)) = .ok b1)
    (h2 : validate_aqi_exps ((leftJoinAqiExp st.edge_gdf updates).map (fun u => u.aqi_exp))
        = .ok b2)
    (h3 : cost_updates st.sens updates = .error e) :
    read_update_aqi_to_graph st name (.ok updates) now
      = ({ st with aqi_data_wip := name, edge_gdf := leftJoinAqiExp st.edge_gdf updates },
         [.publishGdf (leftJoinAqiExp st.edge_gdf updates)], some e) := by
  simp only [read_update_aqi_to_graph, h1, h2, h3]

/-- A completed cycle: merged dataset published, then graph costs written,
then the bookkeeping fields set. -/
lemma read_update_success (st : UpdaterState) (name : String)
    (updates : List EdgeRow) (now : ℚ) (b1 b2 : Bool) (attrs : List (Key × EdgeAttrs))
    (h1 : validate_aqi_exps (updates.map (fun u => u.aqi_exp)) = .ok b1)
    (h2 : validate_aqi_exps ((leftJoinAqiExp st.edge_gdf updates).map (fun u => u.aqi_exp))
        = .ok b2)
    (h3 : cost_updates st.sens updates = .ok attrs) :
    read_update_aqi_to_graph st name (.ok updates) now
      = ({ st with
            aqi_data_wip := "",
            edge_gdf := leftJoinAqiExp st.edge_gdf updates,
            graph_attrs := update_edge_attr_to_graph st.graph_attrs attrs,
            aqi_data_updatetime := some now,
            aqi_data_latest := name },
         [.publishGdf (leftJoinAqiExp st.edge_gdf updates), .updateGraphCosts attrs],
         none) := by
  simp only [read_update_aqi_to_graph, h1, h2, h3]

/-- Counterexample to claim C1 as stated: the batch whose exposure is the
integer 5 passes both fail-open validations, the merged dataset is published,
and only then does the cost fan-out raise `TypeError` — the aborted cycle
leaves readers a merged-but-not-recomputed snapshot different from the last
successfully published one. -/
theorem claim_C1_counterexample :
    (read_update_aqi_to_graph stOne "aqi_2019-11-11T17.csv" (.ok batchBad) 0).2.2
      = some .typeError ∧
    (read_update_aqi_to_graph stOne "aqi_2019-11-11T17.csv" (.ok batchBad) 0).1.edge_gdf
      ≠ stOne.edge_gdf ∧
    (read_update_aqi_to_graph stOne "aqi_2019-11-11T17.csv" (.ok batchBad) 0).2.1
      = [.publishGdf [⟨1, .scalar (.pint 5)⟩]] := by decide

/-- Claim C1 as amended: when a cycle raises, the published dataset is either
untouched (raise before the merge) or exactly the merged-but-not-recomputed
snapshot (raise after the mid-cycle publish); the graph's cost attributes,
the latest-file marker and the update timestamp are untouched either way, and
the wip marker is left set. -/
theorem claim_C1_failed_cycle_snapshot (st : UpdaterState) (csvName : String)
    (csvContents : Except PyErr (List EdgeRow)) (now : ℚ)
    (h : (read_update_aqi_to_graph st csvName csvContents now).2.2 ≠ none) :
    ((read_update_aqi_to_graph st csvName csvContents now).1.edge_gdf = st.edge_gdf ∨
      (read_update_aqi_to_graph st csvName csvContents now).1.edge_gdf
        = leftJoinAqiExp st.edge_gdf (okRows csvContents)) ∧
    (read_update_aqi_to_graph st csvName csvContents now).1.graph_attrs = st.graph_attrs ∧
    (read_update_aqi_to_graph st csvName csvContents now).1.aqi_data_latest
      = st.aqi_data_latest ∧
    (read_update_aqi_to_graph st csvName csvContents now).1.aqi_data_updatetime
      = st.aqi_data_updatetime ∧
    (read_update_aqi_to_graph st csvName csvContents now).1.aqi_data_wip = csvName := by
  rcases csvContents with e | updates
  · rw [read_update_parse_error]
    exact ⟨Or.inl rfl, rfl, rfl, rfl, rfl⟩
  · cases h1 : validate_aqi_exps (updates.map (fun u => u.aqi_exp)) with
    | error e =>
      rw [read_update_validate1_error st csvName updates now e h1]
      exact ⟨Or.inl rfl, rfl, rfl, rfl, rfl⟩
    | ok b1 =>
      cases h2 : validate_aqi_exps
          ((leftJoinAqiExp st.edge_gdf updates).map (fun u => u.aqi_exp)) with
      | error e =>
        rw [read_update_validate2_error st csvName updates now b1 e h1 h2]
        exact ⟨Or.inr rfl, rfl, rfl, rfl, rfl⟩
      | ok b2 =>
        cases h3 : cost_updates st.sens updates with
        | error e =>
          rw [read_update_costs_error st csvName updates now b1 b2 e h1 h2 h3]
          exact ⟨Or.inr rfl, rfl, rfl, rfl, rfl⟩
        | ok attrs =>
          rw [read_update_success st csvName updates now b1 b2 attrs h1 h2 h3] at h
          exact absurd rfl h

/-- Witness for claim C1 on the concrete aborted cycle. -/
theorem claim_C1_witness :
    ((read_update_aqi_to_graph stOne "aqi_2019-11-11T17.csv" (.ok batchBad) 0).2.2 ≠ none) ∧
    (((read_update_aqi_to_graph stOne "aqi_2019-11-11T17.csv" (.ok batchBad) 0).1.edge_gdf
        = stOne.edge_gdf ∨
      (read_update_aqi_to_graph stOne "aqi_2019-11-11T17.csv" (.ok batchBad) 0).1.edge_gdf
        = leftJoinAqiExp stOne.edge_gdf (okRows (.ok batchBad))) ∧
     (read_update_aqi_to_graph stOne "aqi_2019-11-11T17.csv" (.ok batchBad) 0).1.graph_attrs
        = stOne.graph_attrs ∧
     (read_update_aqi_to_graph stOne "aqi_2019-11-11T17.csv" (.ok batchBad) 0).1.aqi_data_latest
        = stOne.aqi_data_latest ∧
     (read_update_aqi_to_graph stOne "aqi_2019-11-11T17.csv" (.ok batchBad) 0).1.aqi_data_updatetime
        = stOne.aqi_data_updatetime ∧
     (read_update_aqi_to_graph stOne "aqi_2019-11-11T17.csv" (.ok batchBad) 0).1.aqi_data_wip
        = "aqi_2019-11-11T17.csv") :=
  ⟨by decide,
   claim_C1_failed_cycle_snapshot stOne "aqi_2019-11-11T17.csv" (.ok batchBad) 0 (by decide)⟩

/-- Counterexample to claim C2 as stated: a fully successful cycle whose
effect trace is the publish first and the graph cost write second — cost
recomputation lands after the snapshot swap, so the snapshot visible right
after the publish still carries the previous cost columns. -/
theorem claim_C2_counterexample :
    (read_update_aqi_to_graph stOne "aqi_2019-11-11T17.csv" (.ok batchGood) 0).2.2 = none ∧
    (read_update_aqi_to_graph stOne "aqi_2019-11-11T17.csv" (.ok batchGood) 0).2.1.map
        (fun ev => (isPublishEvent ev, isCostWriteEvent ev))
      = [(true, false), (false, true)] := by decide

/-- Claim C2 as amended: in every cycle the snapshot publish is the first
effect and the graph cost write, when reached, strictly follows it; a
successful cycle's trace is exactly publish-then-cost-write, with the
published snapshot the merged dataset (whose cost attributes are only
written to the graph by that later effect). -/
theorem claim_C2_publish_precedes_recompute (st : UpdaterState) (csvName : String)
    (csvContents : Except PyErr (List EdgeRow)) (now : ℚ) :
    ((read_update_aqi_to_graph st csvName csvContents now).2.1.map
        (fun ev => (isPublishEvent ev, isCostWriteEvent ev)) = [] ∨
     (read_update_aqi_to_graph st csvName csvContents now).2.1.map
        (fun ev => (isPublishEvent ev, isCostWriteEvent ev)) = [(true, false)] ∨
     (read_update_aqi_to_graph st csvName csvContents now).2.1.map
        (fun ev => (isPublishEvent ev, isCostWriteEvent ev))
       = [(true, false), (false, true)]) ∧
    ((read_update_aqi_to_graph st csvName csvContents now).2.2 = none →
      (read_update_aqi_to_graph st csvName csvContents now).2.1.map
          (fun ev => (isPublishEvent ev, isCostWriteEvent ev))
        = [(true, false), (false, true)] ∧
      (read_update_aqi_to_graph st csvName csvContents now).1.edge_gdf
        = leftJoinAqiExp st.edge_gdf (okRows csvContents)) := by
  rcases csvContents with e | updates
  · rw [read_update_parse_error]
    exact ⟨Or.inl rfl, fun hc => absurd hc (by simp)⟩
  · cases h1 : validate_aqi_exps (updates.map (fun u => u.aqi_exp)) with
    | error e =>
      rw [read_update_validate1_error st csvName updates now e h1]
      exact ⟨Or.inl rfl, fun hc => absurd hc (by simp)⟩
    | ok b1 =>
      cases h2 : validate_aqi_exps
          ((leftJoinAqiExp st.edge_gdf updates).map (fun u => u.aqi_exp)) with
      | error e =>
        rw [read_update_validate2_error st csvName updates now b1 e h1 h2]
        exact ⟨Or.inr (Or.inl rfl), fun hc => absurd hc (by simp)⟩
      | ok b2 =>
        cases h3 : cost_updates st.sens updates with
        | error e =>
          rw [read_update_costs_error st csvName updates now b1 b2 e h1 h2 h3]
          exact ⟨Or.inr (Or.inl rfl), fun hc => absurd hc (by simp)⟩
        | ok attrs =>
          rw [read_update_success st csvName updates now b1 b2 attrs h1 h2 h3]
          exact ⟨Or.inr (Or.inr rfl), fun _ => ⟨rfl, rfl⟩⟩

/-- Claim C3's failing scenario, evaluated: with a cycle in flight for the
previous hour's file (non-empty wip marker), a tick for the next hour's file
found upstream starts a second full cycle — the merged snapshot is published
and the dataset reference changes — while a tick for the in-flight file
itself is correctly skipped without any effect. -/
theorem claim_C3_trigger_during_wip :
    stWip.aqi_data_wip ≠ "" ∧
    (maybe_read_update_aqi_to_graph stWip "aqi_2019-11-11T17.csv"
        ["aqi_2019-11-11T17.csv"] (.ok batchGood) 0).1.edge_gdf ≠ stWip.edge_gdf ∧
    (maybe_read_update_aqi_to_graph stWip "aqi_2019-11-11T17.csv"
        ["aqi_2019-11-11T17.csv"] (.ok batchGood) 0).2.1.map isPublishEvent
      = [true, false] ∧
    (maybe_read_update_aqi_to_graph stWip "aqi_2019-11-11T16.csv"
        ["aqi_2019-11-11T16.csv"] (.ok batchGood) 0).2.1 = [] ∧
    (maybe_read_update_aqi_to_graph stWip "aqi_2019-11-11T16.csv"
        ["aqi_2019-11-11T16.csv"] (.ok batchGood) 0).1.edge_gdf = stWip.edge_gdf := by
  decide

/-! ## The dynamic cost fan-out agrees with the pure cost model -/

/-- A comprehension whose body raises nothing is an ordinary map. -/
lemma mapE_pure {α β : Type} (g : α → β) (l : List α) :
    mapE (fun a => (Except.ok (g a) : Except PyErr β)) l = .ok (l.map g) := by
  induction l with
  | nil => rfl
  | cons x xs ih => simp [mapE, ih]

/-- On a well-formed exposure pair the updater's attribute computation never
raises and equals the pure model: the `aqi` entry is the index and the costs
are `get_aqi_costs((aqi, dist), sens, length=dist)`. -/
lemma get_aq_update_attrs_eq_pure (sens : List ℚ) (v : PyVal)
    (h : wellFormedExp v = true) :
    get_aq_update_attrs sens v = .ok (attrs_of sens v) := by
  rcases v with s | ls
  · exact absurd h (by simp [wellFormedExp])
  · rcases ls with _ | ⟨a, _ | ⟨b, rest⟩⟩
    · exact absurd h (by decide)
    · cases a <;> simp [wellFormedExp] at h
    · cases a <;> cases b <;>
        first
        | (refine absurd h ?_; simp [wellFormedExp]; done)
        | simp [get_aq_update_attrs, get_aqi_costs_py, PyVal.getItem, listGetE, PyScalar.toQ,
            attrs_of, get_aqi_costs, mapE_pure]

/-- On an all-well-formed batch the whole cost fan-out succeeds and equals
the pure model applied row by row. -/
lemma cost_updates_eq_pure (sens : List ℚ) (updates : List EdgeRow)
    (h : updates.all (fun u => wellFormedExp u.aqi_exp) = true) :
    cost_updates sens updates
      = .ok (updates.map (fun u => (u.uvkey, attrs_of sens u.aqi_exp))) := by
  induction updates with
  | nil => rfl
  | cons u us ih =>
    simp only [List.all_cons, Bool.and_eq_true] at h
    have ihh := ih h.2
    rw [cost_updates] at ihh ⊢
    simp [mapE, get_aq_update_attrs_eq_pure sens u.aqi_exp h.1, ihh]
